import Mathlib

/-!
Shallow embedding of the homeserverapi device-integration layer
(src/inverter.rs, src/wattpilot.rs, src/utils.rs) and proofs about it.

Modelling conventions:
* JSON documents are an inductive `Json`; objects are association lists in
  insertion order, and key lookup is last-occurrence-wins (matching the
  map semantics of the JSON library used by the source).
* Rust `f64` values appearing in the device documents are modelled as `ℚ`
  (all concrete values of interest are exactly representable).
* Rust saturating numeric casts (`as u8`, `as u32`, `as u64`, `as i64`)
  are modelled by truncation toward zero followed by clamping to the
  target range, which is the defined behaviour of `as` on floats.
* Timestamps are seconds since the Unix epoch, as `ℚ` (the source
  compares ages via `as_seconds_f64`).
* Fallible library calls (HTTP send, body read, JSON parse) are modelled
  by explicit outcome data fed to the retry loop.
-/

/-- Generic JSON value, as produced by the JSON parser used in the source. -/
inductive Json where
  | null : Json
  | bool (b : Bool) : Json
  | num (q : ℚ) : Json
  | str (s : String) : Json
  | arr (xs : List Json) : Json
  | obj (fields : List (String × Json)) : Json

/-- View a JSON value as an object (association list), as `Value::as_object`. -/
def Json.asObj : Json → Option (List (String × Json))
  | .obj l => some l
  | _ => none

/-- Key lookup in a JSON object; last occurrence wins, matching the
insert-overwrites semantics of the map the JSON parser builds. -/
def lookupJ (l : List (String × Json)) (k : String) : Option Json :=
  ((l.filter fun p => p.1 == k).getLast?).map fun p => p.2

/-- Model of `Value::get(key)`: key lookup on objects, `None` otherwise. -/
def jsonGet (v : Json) (k : String) : Option Json :=
  v.asObj.bind fun l => lookupJ l k

/-- Model of `Value::index` (`v[key]`): like `get` but yields `Null` when absent. -/
def jsonIndex (v : Json) (k : String) : Json :=
  (jsonGet v k).getD .null

/-- Model of comparing a JSON value with a string literal (`v["type"] == "s"`):
true exactly when the value is that string. -/
def jsonIsStr (v : Json) (s : String) : Bool :=
  match v with
  | .str s2 => s2 == s
  | _ => false

/-! ### Saturating float-to-integer casts (Rust `as`) -/

/-- Upper bound of `u32`. -/
def u32Max : ℤ := 4294967295

/-- Upper bound of `u64`. -/
def u64Max : ℤ := 18446744073709551615

/-- Lower bound of `i64`. -/
def i64Min : ℤ := -9223372036854775808

/-- Upper bound of `i64`. -/
def i64Max : ℤ := 9223372036854775807

/-- Truncation toward zero of a rational, the rounding used by Rust float
`as` integer casts. -/
def ratTrunc (x : ℚ) : ℤ := if 0 ≤ x then ⌊x⌋ else ⌈x⌉

/-- Rust `f64 as u8`: truncate toward zero, saturate into `[0, 255]`. -/
def f64AsU8 (x : ℚ) : ℕ := (max 0 (min 255 (ratTrunc x))).toNat

/-- Rust `f64 as u32`: truncate toward zero, saturate into `[0, u32Max]`. -/
def f64AsU32 (x : ℚ) : ℕ := (max 0 (min u32Max (ratTrunc x))).toNat

/-- Rust `f64 as u64`: truncate toward zero, saturate into `[0, u64Max]`. -/
def f64AsU64 (x : ℚ) : ℕ := (max 0 (min u64Max (ratTrunc x))).toNat

/-- Rust `f64 as i64`: truncate toward zero, saturate into `[i64Min, i64Max]`. -/
def f64AsI64 (x : ℚ) : ℤ := max i64Min (min i64Max (ratTrunc x))

/-! ### Solar fetch data model (src/inverter.rs) -/

/-- Normalized solar snapshot, mirroring `SolarData` in src/inverter.rs. -/
structure SolarData where
  last_time : ℚ
  old_inverter_power : ℕ
  new_inverter_power : ℕ
  both_inverter_power : ℕ
  battery_load_percentage : ℕ
  autonomy_percent : ℕ
  self_consumption_percent : ℕ
  drain_from_battery : ℤ
  drain_from_grid : ℤ
  house_consumption : ℕ

/-- One secondary-meter reading, mirroring `SecondaryMeter` (field `power`,
JSON alias "P", null defaults to zero). -/
structure SecondaryMeter where
  power : ℚ

/-- One inverter entry, mirroring `Inverter` (field `battery_percent`,
JSON alias "SOC", missing or null defaults to zero). -/
structure Inverter where
  battery_percent : ℚ

/-- Site-level record, mirroring `Site` in src/inverter.rs. -/
structure Site where
  power_battery : ℚ
  power_grid : ℚ
  house_consumption : ℚ
  power_pv : ℚ
  autonomy : ℚ
  self_consumption : ℚ

/-- Parsed inverter response, mirroring `SolarJson` in src/inverter.rs.
The secondary-meter map is kept as an association list; the source takes
`.values().last()` of it. -/
structure SolarJson where
  secondary_meters : List (String × SecondaryMeter)
  inverters : List Inverter
  site : Site

/-- Power of the last secondary meter, zero-valued default when empty
(lines 143-145 of src/inverter.rs). -/
def secPowerOf (j : SolarJson) : ℚ :=
  (((j.secondary_meters.map Prod.snd).getLast?).getD { power := 0 }).power

/-- Battery percentage of the last inverter entry, zero-valued default when
empty (lines 146-148 of src/inverter.rs). -/
def batteryOf (j : SolarJson) : ℚ :=
  (j.inverters.getLast?.getD { battery_percent := 0 }).battery_percent

/-- Construction of the returned snapshot from the parsed response,
mirroring lines 149-160 of src/inverter.rs (`now` is `now_utc`). -/
def solarDataOf (j : SolarJson) (now : ℚ) : SolarData :=
  { last_time := now
    old_inverter_power := f64AsU32 (secPowerOf j)
    new_inverter_power := f64AsU32 j.site.power_pv
    both_inverter_power := f64AsU32 (secPowerOf j + j.site.power_pv)
    battery_load_percentage := f64AsU8 (batteryOf j)
    autonomy_percent := f64AsU8 j.site.autonomy
    self_consumption_percent := f64AsU8 j.site.self_consumption
    drain_from_battery := f64AsI64 j.site.power_battery
    drain_from_grid := f64AsI64 j.site.power_grid
    house_consumption := f64AsU64 (-1 * j.site.house_consumption) }

/-- Model of `deserialize_null_default` on an f64 field: null becomes zero,
numbers pass through, any other JSON type fails. -/
def decodeNumOrNull : Json → Option ℚ
  | .null => some 0
  | .num q => some q
  | _ => none

/-- Try a list of accepted field names (serde name plus aliases) in order. -/
def lookupAny (l : List (String × Json)) : List String → Option Json
  | [] => none
  | k :: ks =>
    match lookupJ l k with
    | some v => some v
    | none => lookupAny l ks

/-- Serde decoding of `SecondaryMeter`: the `power`/"P" field is required. -/
def decodeSecondaryMeter (j : Json) : Option SecondaryMeter := do
  let o ← j.asObj
  let v ← lookupAny o ["power", "P"]
  let q ← decodeNumOrNull v
  some ⟨q⟩

/-- Serde decoding of `Inverter`: the `battery_percent`/"SOC" field carries
`default`, so a missing field yields zero. -/
def decodeInverter (j : Json) : Option Inverter := do
  let o ← j.asObj
  match lookupAny o ["battery_percent", "SOC"] with
  | none => some ⟨0⟩
  | some v => do
    let q ← decodeNumOrNull v
    some ⟨q⟩

/-- Serde decoding of `Site`: all six fields are required (name or alias). -/
def decodeSite (j : Json) : Option Site := do
  let o ← j.asObj
  let pb ← (lookupAny o ["power_battery", "P_Akku"]).bind decodeNumOrNull
  let pg ← (lookupAny o ["power_grid", "P_Grid"]).bind decodeNumOrNull
  let hc ← (lookupAny o ["house_consumption", "P_Load"]).bind decodeNumOrNull
  let pv ← (lookupAny o ["power_pv", "P_PV"]).bind decodeNumOrNull
  let au ← (lookupAny o ["autonomy", "rel_Autonomy"]).bind decodeNumOrNull
  let sc ← (lookupAny o ["self_consumption", "rel_SelfConsumption"]).bind decodeNumOrNull
  some ⟨pb, pg, hc, pv, au, sc⟩

/-- Serde decoding of the secondary-meter map: every entry must decode. -/
def decodeSecondaryMeters (j : Json) : Option (List (String × SecondaryMeter)) := do
  let o ← j.asObj
  o.mapM fun p => (decodeSecondaryMeter p.2).map fun m => (p.1, m)

/-- Serde decoding of the inverter sequence: must be an array whose entries
all decode. -/
def decodeInverters (j : Json) : Option (List Inverter) :=
  match j with
  | .arr xs => xs.mapM decodeInverter
  | _ => none

/-- Serde deserialization of `SolarJson` (lines 94-102 of src/inverter.rs).
The field `site` declares the serde alias "inverters" (a duplicate of the
alias already owned by the `inverters` field declared just above it), not
"Site": in the generated field matcher the earlier field wins the name
"inverters", so `site` can only be filled by a literal "site" key, and the
device key "Site" falls through to the ignored-unknown-field case.  Every
field is required, so a document without a "site" key fails with a
missing-field error. -/
def deserializeSolarJson (j : Json) : Option SolarJson := do
  let o ← j.asObj
  let smv ← lookupAny o ["secondary_meters", "SecondaryMeters"]
  let sm ← decodeSecondaryMeters smv
  let invv ← lookupAny o ["inverters"]
  let invs ← decodeInverters invv
  let sv ← lookupAny o ["site"]
  let site ← decodeSite sv
  some ⟨sm, invs, site⟩

/-! ### The bounded-retry fetch loop of `get_data` (lines 104-137) -/

/-- Outcome of the fallible library calls made by one loop iteration of
`get_data`: the HTTP send can fail, a non-success response's body read can
fail or yield a readable error body, and a success response's body read can
fail or yield a body that is either unparsable (`none`) or a JSON value. -/
inductive FetchStep where
  | sendErr (e : String)
  | statusFailTextErr (e : String)
  | statusFail (body : String)
  | okTextErr (e : String)
  | okBody (body : Option Json)

/-- Observable event of the loop: one HTTP attempt, or one sleep of the
given number of milliseconds. -/
inductive FetchEvent where
  | attempt
  | sleepMs (ms : ℕ)
deriving DecidableEq

/-- Result of `get_data`: an error propagated by `?` out of the loop body,
or the internal-server-error returned after the attempts are exhausted. -/
inductive FetchError where
  | propagated (e : String)
  | internalServerError
deriving DecidableEq

/-- How one loop iteration of `get_data` treats its step outcome:
`?` on the send or on either body read propagates immediately; a
non-success status or a JSON parse failure records the error and retries;
a parsed body breaks out successfully (lines 109-133 of src/inverter.rs). -/
def classifyStep (s : FetchStep) : Except String (Option SolarJson) :=
  match s with
  | .sendErr e => .error e
  | .statusFailTextErr e => .error e
  | .statusFail _ => .ok none
  | .okTextErr e => .error e
  | .okBody none => .ok none
  | .okBody (some j) =>
    match deserializeSolarJson j with
    | some v => .ok (some v)
    | none => .ok none

/-- The `for _ in 0..3` loop of `get_data`, with attempt index and remaining
fuel; produces the event trace and the loop result. -/
def fetchLoop (env : ℕ → FetchStep) : ℕ → ℕ → List FetchEvent × Except FetchError SolarJson
  | _, 0 => ([], .error .internalServerError)
  | i, fuel + 1 =>
    match classifyStep (env i) with
    | .error e => ([.attempt], .error (.propagated e))
    | .ok (some j) => ([.attempt], .ok j)
    | .ok none =>
      let r := fetchLoop env (i + 1) fuel
      (.attempt :: .sleepMs 100 :: r.1, r.2)

/-- The retry loop of `get_data` with its fixed budget of 3 attempts. -/
def runFetch (env : ℕ → FetchStep) : List FetchEvent × Except FetchError SolarJson :=
  fetchLoop env 0 3

/-- Full `get_data`: run the retry loop and normalize the parsed response. -/
def get_data (env : ℕ → FetchStep) (now : ℚ) : Except FetchError SolarData :=
  (runFetch env).2.map fun j => solarDataOf j now

/-- Number of HTTP attempts recorded in an event trace. -/
def countAttempts (evs : List FetchEvent) : ℕ :=
  (evs.filter fun e => match e with | .attempt => true | _ => false).length

/-- The end-to-end inverter response of the specification's scenario. -/
def c1Json : Json :=
  Json.obj
    [("SecondaryMeters", Json.obj [("m1", Json.obj [("P", Json.num 100)])]),
     ("inverters", Json.arr [Json.obj [("SOC", Json.num 55)]]),
     ("Site", Json.obj
        [("P_Akku", Json.num (-200)), ("P_Grid", Json.num 50),
         ("P_Load", Json.num (-3000)), ("P_PV", Json.num 2500),
         ("rel_Autonomy", Json.num 80), ("rel_SelfConsumption", Json.num 90)])]

/-! ### Charger data model (src/wattpilot.rs) -/

/-- Car state enumeration, mirroring `CarState` with its `u16` discriminants. -/
inductive CarState where
  | Unknown
  | Idle
  | Charging
  | WaitCar
  | Complete
  | Error
deriving DecidableEq

/-- Model-status enumeration, mirroring `ModelStatus`.  Note the source
enum has no variant for discriminant 21. -/
inductive ModelStatus where
  | NotChargingBecauseNoChargeCtrlData
  | NotChargingBecauseOverTemperature
  | NotChargingBecauseAccessControlWait
  | ChargingBecauseForceStateOn
  | NotChargingBecauseForceStateOff
  | NotChargingBecauseScheduler
  | NotChargingBecauseEnergyLimit
  | ChargingBecauseAwattarPriceLow
  | ChargingBecauseAutomaticStopTestLadung
  | ChargingBecauseAutomaticStopNotEnoughTime
  | ChargingBecauseAutomaticStop
  | ChargingBecauseAutomaticStopNoClock
  | ChargingBecausePvSurplus
  | ChargingBecauseFallbackGoEDefault
  | ChargingBecauseFallbackGoEScheduler
  | ChargingBecauseFallbackDefault
  | NotChargingBecauseFallbackGoEAwattar
  | NotChargingBecauseFallbackAwattar
  | NotChargingBecauseFallbackAutomaticStop
  | ChargingBecauseCarCompatibilityKeepAlive
  | ChargingBecauseChargePauseNotAllowed
  | NotChargingBecauseSimulateUnplugging
  | NotChargingBecausePhaseSwitch
  | NotChargingBecauseMinPauseDuration
deriving DecidableEq

/-- Electrical-values bundle, mirroring `ChargingValues` (16 `f32` fields). -/
structure ChargingValues where
  u1 : ℚ
  u2 : ℚ
  u3 : ℚ
  un : ℚ
  i1 : ℚ
  i2 : ℚ
  i3 : ℚ
  p1 : ℚ
  p2 : ℚ
  p3 : ℚ
  pn : ℚ
  pt : ℚ
  pf1 : ℚ
  pf2 : ℚ
  pf3 : ℚ
  pfn : ℚ
deriving DecidableEq

/-- All-zero `ChargingValues`, the derived `Default`. -/
def defaultChargingValues : ChargingValues :=
  ⟨0, 0, 0, 0, 0, 0, 0, 0, 0, 0, 0, 0, 0, 0, 0, 0⟩

/-- Charger snapshot, mirroring `WattpilotData`.  The source stores `tpcm`
as the serialization string of a JSON array; the model stores the array
itself (serialization is injective on arrays, so no information differs). -/
structure WattpilotData where
  last_updated : ℚ
  charging_values : ChargingValues
  car_state : CarState
  model_status : ModelStatus
  charged_since_connected : ℚ
  tpcm : Json
  lps : ℤ
  ets : ℤ

/-- Default charger snapshot (the `Default` impl in src/wattpilot.rs):
epoch timestamp, zero electrical values, `Unknown` car state,
`NotChargingBecauseNoChargeCtrlData`, zero energy, empty array, zeros. -/
def defaultWattpilotData : WattpilotData :=
  { last_updated := 0
    charging_values := defaultChargingValues
    car_state := .Unknown
    model_status := .NotChargingBecauseNoChargeCtrlData
    charged_since_connected := 0
    tpcm := Json.arr []
    lps := 0
    ets := 0 }

/-- Serde decoding of a `u16`-repr discriminant from a JSON value: the
value must be an integral number in the `u16` range. -/
def decodeU16 (j : Json) : Option ℕ :=
  match j with
  | .num q => if q.den = 1 ∧ 0 ≤ q.num ∧ q.num ≤ 65535 then some q.num.toNat else none
  | _ => none

/-- Discriminant table of `CarState`. -/
def carStateOfU16 (n : ℕ) : Option CarState :=
  match n with
  | 0 => some .Unknown
  | 1 => some .Idle
  | 2 => some .Charging
  | 3 => some .WaitCar
  | 4 => some .Complete
  | 5 => some .Error
  | _ => none

/-- Serde decoding of `CarState` via its numeric discriminant. -/
def decodeCarState (j : Json) : Option CarState :=
  (decodeU16 j).bind carStateOfU16

/-- Discriminant table of `ModelStatus`; 21 has no variant and fails. -/
def modelStatusOfU16 (n : ℕ) : Option ModelStatus :=
  match n with
  | 0 => some .NotChargingBecauseNoChargeCtrlData
  | 1 => some .NotChargingBecauseOverTemperature
  | 2 => some .NotChargingBecauseAccessControlWait
  | 3 => some .ChargingBecauseForceStateOn
  | 4 => some .NotChargingBecauseForceStateOff
  | 5 => some .NotChargingBecauseScheduler
  | 6 => some .NotChargingBecauseEnergyLimit
  | 7 => some .ChargingBecauseAwattarPriceLow
  | 8 => some .ChargingBecauseAutomaticStopTestLadung
  | 9 => some .ChargingBecauseAutomaticStopNotEnoughTime
  | 10 => some .ChargingBecauseAutomaticStop
  | 11 => some .ChargingBecauseAutomaticStopNoClock
  | 12 => some .ChargingBecausePvSurplus
  | 13 => some .ChargingBecauseFallbackGoEDefault
  | 14 => some .ChargingBecauseFallbackGoEScheduler
  | 15 => some .ChargingBecauseFallbackDefault
  | 16 => some .NotChargingBecauseFallbackGoEAwattar
  | 17 => some .NotChargingBecauseFallbackAwattar
  | 18 => some .NotChargingBecauseFallbackAutomaticStop
  | 19 => some .ChargingBecauseCarCompatibilityKeepAlive
  | 20 => some .ChargingBecauseChargePauseNotAllowed
  | 22 => some .NotChargingBecauseSimulateUnplugging
  | 23 => some .NotChargingBecausePhaseSwitch
  | 24 => some .NotChargingBecauseMinPauseDuration
  | _ => none

/-- Serde decoding of `ModelStatus` via its numeric discriminant. -/
def decodeModelStatus (j : Json) : Option ModelStatus :=
  (decodeU16 j).bind modelStatusOfU16

/-- Serde decoding of an `f32`/`f64` field: any JSON number. -/
def decodeF32 (j : Json) : Option ℚ :=
  match j with
  | .num q => some q
  | _ => none

/-- Serde decoding of an `i64`: an integral number in the `i64` range. -/
def decodeI64Json (j : Json) : Option ℤ :=
  match j with
  | .num q => if q.den = 1 ∧ i64Min ≤ q.num ∧ q.num ≤ i64Max then some q.num else none
  | _ => none

/-- Serde decoding of `ChargingValues`: either a JSON object carrying all
16 required field names, or a JSON sequence of exactly 16 numbers filling
the fields in declaration order. -/
def decodeChargingValues (j : Json) : Option ChargingValues :=
  match j with
  | .obj l => do
    let u1 ← (lookupJ l "u1").bind decodeF32
    let u2 ← (lookupJ l "u2").bind decodeF32
    let u3 ← (lookupJ l "u3").bind decodeF32
    let un ← (lookupJ l "un").bind decodeF32
    let i1 ← (lookupJ l "i1").bind decodeF32
    let i2 ← (lookupJ l "i2").bind decodeF32
    let i3 ← (lookupJ l "i3").bind decodeF32
    let p1 ← (lookupJ l "p1").bind decodeF32
    let p2 ← (lookupJ l "p2").bind decodeF32
    let p3 ← (lookupJ l "p3").bind decodeF32
    let pn ← (lookupJ l "pn").bind decodeF32
    let pt ← (lookupJ l "pt").bind decodeF32
    let pf1 ← (lookupJ l "pf1").bind decodeF32
    let pf2 ← (lookupJ l "pf2").bind decodeF32
    let pf3 ← (lookupJ l "pf3").bind decodeF32
    let pfn ← (lookupJ l "pfn").bind decodeF32
    some ⟨u1, u2, u3, un, i1, i2, i3, p1, p2, p3, pn, pt, pf1, pf2, pf3, pfn⟩
  | .arr xs =>
    match xs.mapM decodeF32 with
    | some [a1, a2, a3, a4, a5, a6, a7, a8, a9, a10, a11, a12, a13, a14, a15, a16] =>
      some ⟨a1, a2, a3, a4, a5, a6, a7, a8, a9, a10, a11, a12, a13, a14, a15, a16⟩
    | _ => none
  | _ => none

/-- Allow-list of status keys recognized by `read_message` (line 298). -/
def allowKeys : List String := ["nrg", "car", "modelStatus", "wh", "tpcm", "lps", "ets"]

/-- Block of `read_message` handling the "nrg" key (lines 308-314):
overwrite on successful decode, keep the old value otherwise. -/
def applyNrg (r : List (String × Json)) (d : WattpilotData) : WattpilotData :=
  match lookupJ r "nrg" with
  | none => d
  | some v =>
    match decodeChargingValues v with
    | some c => { d with charging_values := c }
    | none => d

/-- Block of `read_message` handling the "car" key (lines 315-321). -/
def applyCar (r : List (String × Json)) (d : WattpilotData) : WattpilotData :=
  match lookupJ r "car" with
  | none => d
  | some v =>
    match decodeCarState v with
    | some c => { d with car_state := c }
    | none => d

/-- Block of `read_message` handling the "modelStatus" key (lines 322-328). -/
def applyModelStatus (r : List (String × Json)) (d : WattpilotData) : WattpilotData :=
  match lookupJ r "modelStatus" with
  | none => d
  | some v =>
    match decodeModelStatus v with
    | some m => { d with model_status := m }
    | none => d

/-- Block of `read_message` handling the "wh" key (lines 329-335). -/
def applyWh (r : List (String × Json)) (d : WattpilotData) : WattpilotData :=
  match lookupJ r "wh" with
  | none => d
  | some v =>
    match decodeF32 v with
    | some q => { d with charged_since_connected := q }
    | none => d

/-- Block of `read_message` handling the "tpcm" key (lines 336-351): only a
JSON array is accepted, and its serialization is stored. -/
def applyTpcm (r : List (String × Json)) (d : WattpilotData) : WattpilotData :=
  match lookupJ r "tpcm" with
  | none => d
  | some v =>
    match v with
    | .arr xs => { d with tpcm := Json.arr xs }
    | _ => d

/-- Block of `read_message` handling the "lps" key (lines 352-358). -/
def applyLps (r : List (String × Json)) (d : WattpilotData) : WattpilotData :=
  match lookupJ r "lps" with
  | none => d
  | some v =>
    match decodeI64Json v with
    | some z => { d with lps := z }
    | none => d

/-- Block of `read_message` handling the "ets" key (lines 359-365). -/
def applyEts (r : List (String × Json)) (d : WattpilotData) : WattpilotData :=
  match lookupJ r "ets" with
  | none => d
  | some v =>
    match decodeI64Json v with
    | some z => { d with ets := z }
    | none => d

/-- Sequential application of the seven per-field blocks of `read_message`,
in the source order. -/
def applyStatus (r : List (String × Json)) (d : WattpilotData) : WattpilotData :=
  applyEts r (applyLps r (applyTpcm r (applyWh r (applyModelStatus r (applyCar r (applyNrg r d))))))

/-- Model of `Wattpilot::read_message` (lines 287-366): `msg` is the result
of parsing the inbound text as generic JSON (`none` for unparsable text);
a missing or non-object "status", or an empty allow-list filter, discards
the message; otherwise the timestamp is set to `now` and the per-field
blocks run. -/
def read_message (d : WattpilotData) (now : ℚ) (msg : Option Json) : WattpilotData :=
  match msg with
  | none => d
  | some v =>
    match jsonGet v "status" with
    | none => d
    | some status =>
      match status.asObj with
      | none => d
      | some o =>
        let reduced := o.filter fun p => allowKeys.contains p.1
        if reduced.isEmpty then d
        else applyStatus reduced { d with last_updated := now }

/-! ### Field-indexed view of the charger snapshot -/

/-- Names of the seven allow-listed updatable fields. -/
inductive FieldId where
  | nrg
  | car
  | modelStatus
  | wh
  | tpcm
  | lps
  | ets
deriving DecidableEq

/-- Status key owning each field. -/
def keyOf : FieldId → String
  | .nrg => "nrg"
  | .car => "car"
  | .modelStatus => "modelStatus"
  | .wh => "wh"
  | .tpcm => "tpcm"
  | .lps => "lps"
  | .ets => "ets"

/-- Value of one updatable field. -/
inductive FieldVal where
  | nrg (c : ChargingValues)
  | car (s : CarState)
  | modelStatus (m : ModelStatus)
  | wh (q : ℚ)
  | tpcm (j : Json)
  | lps (z : ℤ)
  | ets (z : ℤ)

/-- Projection of one updatable field out of the snapshot. -/
def proj : FieldId → WattpilotData → FieldVal
  | .nrg, d => .nrg d.charging_values
  | .car, d => .car d.car_state
  | .modelStatus, d => .modelStatus d.model_status
  | .wh, d => .wh d.charged_since_connected
  | .tpcm, d => .tpcm d.tpcm
  | .lps, d => .lps d.lps
  | .ets, d => .ets d.ets

/-- Decoder each field's block applies to the JSON value found under its
key; `none` is the malformed case the block warns about and skips. -/
def fieldDecode : FieldId → Json → Option FieldVal
  | .nrg, v => (decodeChargingValues v).map .nrg
  | .car, v => (decodeCarState v).map .car
  | .modelStatus, v => (decodeModelStatus v).map .modelStatus
  | .wh, v => (decodeF32 v).map .wh
  | .tpcm, v =>
    match v with
    | .arr xs => some (.tpcm (.arr xs))
    | _ => none
  | .lps, v => (decodeI64Json v).map .lps
  | .ets, v => (decodeI64Json v).map .ets

/-! ### Scheduler charger-read step (src/utils.rs, add_point lines 71-84) -/

/-- The part of the shared `Wattpilot` client state read by `add_point`. -/
structure Wattpilot where
  authenticated : Bool
  data : WattpilotData

/-- Charger-read step of one `add_point` cycle (lines 71-84 of
src/utils.rs): the returned pair is the charger record used for the export
and the health-check code sent for the charger (if any).  An absent client
yields the default record with no notification; a present client that is
unauthenticated or whose snapshot is older than 30 seconds yields the
default record plus a degraded (code 2) notification; otherwise the live
snapshot with no notification. -/
def chargerStep (wp : Option Wattpilot) (now : ℚ) : WattpilotData × Option ℕ :=
  match wp with
  | none => (defaultWattpilotData, none)
  | some w =>
    let wp_age := now - w.data.last_updated
    if w.authenticated = false ∨ wp_age > 30 then (defaultWattpilotData, some 2)
    else (w.data, none)

/-! ### Auth-response handling (src/wattpilot.rs, lines 229-241, 260-271) -/

/-- Final value of the `authenticated` flag after the two sequential `if`s
of `authenticate` inspect the response's "type" (lines 233-240). -/
def authFlagOnResponse (v : Json) (b : Bool) : Bool :=
  let t := jsonIndex v "type"
  let b1 := if jsonIsStr t "authError" then false else b
  if jsonIsStr t "authSuccess" then true else b1

/-- Step 8 of `authenticate` (lines 229-241): `resp` is the received auth
response parsed as generic JSON (`none` when no message arrives or it
fails to parse, which the source turns into an error before the type
checks).  On any well-formed response the function updates the flag and
returns `Ok(())`, carried here as the new flag value. -/
def authProcessResponse (resp : Option Json) (b : Bool) : Except String Bool :=
  match resp with
  | none => .error "No data for auth response"
  | some v => .ok (authFlagOnResponse v b)

/-- Gate in `main_handler` (lines 260-271): streaming is entered exactly
when `authenticate` returned `Ok`. -/
def entersStreaming (resp : Option Json) (b : Bool) : Bool :=
  match authProcessResponse resp b with
  | .ok _ => true
  | .error _ => false

/-! ### Per-block projection lemmas for the read_message field blocks -/
/-- Block applyNrg does not touch field last_updated. -/
theorem applyNrg_last_updated (r : List (String × Json)) (d : WattpilotData) :
    (applyNrg r d).last_updated = d.last_updated := by
  unfold applyNrg
  (repeat' split) <;> simp_all

/-- Block applyNrg does not touch field car_state. -/
theorem applyNrg_car_state (r : List (String × Json)) (d : WattpilotData) :
    (applyNrg r d).car_state = d.car_state := by
  unfold applyNrg
  (repeat' split) <;> simp_all

/-- Block applyNrg does not touch field model_status. -/
theorem applyNrg_model_status (r : List (String × Json)) (d : WattpilotData) :
    (applyNrg r d).model_status = d.model_status := by
  unfold applyNrg
  (repeat' split) <;> simp_all

/-- Block applyNrg does not touch field charged_since_connected. -/
theorem applyNrg_charged_since_connected (r : List (String × Json)) (d : WattpilotData) :
    (applyNrg r d).charged_since_connected = d.charged_since_connected := by
  unfold applyNrg
  (repeat' split) <;> simp_all

/-- Block applyNrg does not touch field tpcm. -/
theorem applyNrg_tpcm (r : List (String × Json)) (d : WattpilotData) :
    (applyNrg r d).tpcm = d.tpcm := by
  unfold applyNrg
  (repeat' split) <;> simp_all

/-- Block applyNrg does not touch field lps. -/
theorem applyNrg_lps (r : List (String × Json)) (d : WattpilotData) :
    (applyNrg r d).lps = d.lps := by
  unfold applyNrg
  (repeat' split) <;> simp_all

/-- Block applyNrg does not touch field ets. -/
theorem applyNrg_ets (r : List (String × Json)) (d : WattpilotData) :
    (applyNrg r d).ets = d.ets := by
  unfold applyNrg
  (repeat' split) <;> simp_all

/-- Characterization of block applyNrg on its own field. -/
theorem applyNrg_self (r : List (String × Json)) (d : WattpilotData) :
    (applyNrg r d).charging_values =
      match lookupJ r "nrg" with
      | none => d.charging_values
      | some v => (decodeChargingValues v).getD d.charging_values := by
  unfold applyNrg
  (repeat' split) <;> simp_all

/-- Block applyCar does not touch field last_updated. -/
theorem applyCar_last_updated (r : List (String × Json)) (d : WattpilotData) :
    (applyCar r d).last_updated = d.last_updated := by
  unfold applyCar
  (repeat' split) <;> simp_all

/-- Block applyCar does not touch field charging_values. -/
theorem applyCar_charging_values (r : List (String × Json)) (d : WattpilotData) :
    (applyCar r d).charging_values = d.charging_values := by
  unfold applyCar
  (repeat' split) <;> simp_all

/-- Block applyCar does not touch field model_status. -/
theorem applyCar_model_status (r : List (String × Json)) (d : WattpilotData) :
    (applyCar r d).model_status = d.model_status := by
  unfold applyCar
  (repeat' split) <;> simp_all

/-- Block applyCar does not touch field charged_since_connected. -/
theorem applyCar_charged_since_connected (r : List (String × Json)) (d : WattpilotData) :
    (applyCar r d).charged_since_connected = d.charged_since_connected := by
  unfold applyCar
  (repeat' split) <;> simp_all

/-- Block applyCar does not touch field tpcm. -/
theorem applyCar_tpcm (r : List (String × Json)) (d : WattpilotData) :
    (applyCar r d).tpcm = d.tpcm := by
  unfold applyCar
  (repeat' split) <;> simp_all

/-- Block applyCar does not touch field lps. -/
theorem applyCar_lps (r : List (String × Json)) (d : WattpilotData) :
    (applyCar r d).lps = d.lps := by
  unfold applyCar
  (repeat' split) <;> simp_all

/-- Block applyCar does not touch field ets. -/
theorem applyCar_ets (r : List (String × Json)) (d : WattpilotData) :
    (applyCar r d).ets = d.ets := by
  unfold applyCar
  (repeat' split) <;> simp_all

/-- Characterization of block applyCar on its own field. -/
theorem applyCar_self (r : List (String × Json)) (d : WattpilotData) :
    (applyCar r d).car_state =
      match lookupJ r "car" with
      | none => d.car_state
      | some v => (decodeCarState v).getD d.car_state := by
  unfold applyCar
  (repeat' split) <;> simp_all

/-- Block applyModelStatus does not touch field last_updated. -/
theorem applyModelStatus_last_updated (r : List (String × Json)) (d : WattpilotData) :
    (applyModelStatus r d).last_updated = d.last_updated := by
  unfold applyModelStatus
  (repeat' split) <;> simp_all

/-- Block applyModelStatus does not touch field charging_values. -/
theorem applyModelStatus_charging_values (r : List (String × Json)) (d : WattpilotData) :
    (applyModelStatus r d).charging_values = d.charging_values := by
  unfold applyModelStatus
  (repeat' split) <;> simp_all

/-- Block applyModelStatus does not touch field car_state. -/
theorem applyModelStatus_car_state (r : List (String × Json)) (d : WattpilotData) :
    (applyModelStatus r d).car_state = d.car_state := by
  unfold applyModelStatus
  (repeat' split) <;> simp_all

/-- Block applyModelStatus does not touch field charged_since_connected. -/
theorem applyModelStatus_charged_since_connected (r : List (String × Json)) (d : WattpilotData) :
    (applyModelStatus r d).charged_since_connected = d.charged_since_connected := by
  unfold applyModelStatus
  (repeat' split) <;> simp_all

/-- Block applyModelStatus does not touch field tpcm. -/
theorem applyModelStatus_tpcm (r : List (String × Json)) (d : WattpilotData) :
    (applyModelStatus r d).tpcm = d.tpcm := by
  unfold applyModelStatus
  (repeat' split) <;> simp_all

/-- Block applyModelStatus does not touch field lps. -/
theorem applyModelStatus_lps (r : List (String × Json)) (d : WattpilotData) :
    (applyModelStatus r d).lps = d.lps := by
  unfold applyModelStatus
  (repeat' split) <;> simp_all

/-- Block applyModelStatus does not touch field ets. -/
theorem applyModelStatus_ets (r : List (String × Json)) (d : WattpilotData) :
    (applyModelStatus r d).ets = d.ets := by
  unfold applyModelStatus
  (repeat' split) <;> simp_all

/-- Characterization of block applyModelStatus on its own field. -/
theorem applyModelStatus_self (r : List (String × Json)) (d : WattpilotData) :
    (applyModelStatus r d).model_status =
      match lookupJ r "modelStatus" with
      | none => d.model_status
      | some v => (decodeModelStatus v).getD d.model_status := by
  unfold applyModelStatus
  (repeat' split) <;> simp_all

/-- Block applyWh does not touch field last_updated. -/
theorem applyWh_last_updated (r : List (String × Json)) (d : WattpilotData) :
    (applyWh r d).last_updated = d.last_updated := by
  unfold applyWh
  (repeat' split) <;> simp_all

/-- Block applyWh does not touch field charging_values. -/
theorem applyWh_charging_values (r : List (String × Json)) (d : WattpilotData) :
    (applyWh r d).charging_values = d.charging_values := by
  unfold applyWh
  (repeat' split) <;> simp_all

/-- Block applyWh does not touch field car_state. -/
theorem applyWh_car_state (r : List (String × Json)) (d : WattpilotData) :
    (applyWh r d).car_state = d.car_state := by
  unfold applyWh
  (repeat' split) <;> simp_all

/-- Block applyWh does not touch field model_status. -/
theorem applyWh_model_status (r : List (String × Json)) (d : WattpilotData) :
    (applyWh r d).model_status = d.model_status := by
  unfold applyWh
  (repeat' split) <;> simp_all

/-- Block applyWh does not touch field tpcm. -/
theorem applyWh_tpcm (r : List (String × Json)) (d : WattpilotData) :
    (applyWh r d).tpcm = d.tpcm := by
  unfold applyWh
  (repeat' split) <;> simp_all

/-- Block applyWh does not touch field lps. -/
theorem applyWh_lps (r : List (String × Json)) (d : WattpilotData) :
    (applyWh r d).lps = d.lps := by
  unfold applyWh
  (repeat' split) <;> simp_all

/-- Block applyWh does not touch field ets. -/
theorem applyWh_ets (r : List (String × Json)) (d : WattpilotData) :
    (applyWh r d).ets = d.ets := by
  unfold applyWh
  (repeat' split) <;> simp_all

/-- Characterization of block applyWh on its own field. -/
theorem applyWh_self (r : List (String × Json)) (d : WattpilotData) :
    (applyWh r d).charged_since_connected =
      match lookupJ r "wh" with
      | none => d.charged_since_connected
      | some v => (decodeF32 v).getD d.charged_since_connected := by
  unfold applyWh
  (repeat' split) <;> simp_all

/-- Block applyTpcm does not touch field last_updated. -/
theorem applyTpcm_last_updated (r : List (String × Json)) (d : WattpilotData) :
    (applyTpcm r d).last_updated = d.last_updated := by
  unfold applyTpcm
  (repeat' split) <;> simp_all

/-- Block applyTpcm does not touch field charging_values. -/
theorem applyTpcm_charging_values (r : List (String × Json)) (d : WattpilotData) :
    (applyTpcm r d).charging_values = d.charging_values := by
  unfold applyTpcm
  (repeat' split) <;> simp_all

/-- Block applyTpcm does not touch field car_state. -/
theorem applyTpcm_car_state (r : List (String × Json)) (d : WattpilotData) :
    (applyTpcm r d).car_state = d.car_state := by
  unfold applyTpcm
  (repeat' split) <;> simp_all

/-- Block applyTpcm does not touch field model_status. -/
theorem applyTpcm_model_status (r : List (String × Json)) (d : WattpilotData) :
    (applyTpcm r d).model_status = d.model_status := by
  unfold applyTpcm
  (repeat' split) <;> simp_all

/-- Block applyTpcm does not touch field charged_since_connected. -/
theorem applyTpcm_charged_since_connected (r : List (String × Json)) (d : WattpilotData) :
    (applyTpcm r d).charged_since_connected = d.charged_since_connected := by
  unfold applyTpcm
  (repeat' split) <;> simp_all

/-- Block applyTpcm does not touch field lps. -/
theorem applyTpcm_lps (r : List (String × Json)) (d : WattpilotData) :
    (applyTpcm r d).lps = d.lps := by
  unfold applyTpcm
  (repeat' split) <;> simp_all

/-- Block applyTpcm does not touch field ets. -/
theorem applyTpcm_ets (r : List (String × Json)) (d : WattpilotData) :
    (applyTpcm r d).ets = d.ets := by
  unfold applyTpcm
  (repeat' split) <;> simp_all

/-- Characterization of block applyTpcm on its own field. -/
theorem applyTpcm_self (r : List (String × Json)) (d : WattpilotData) :
    (applyTpcm r d).tpcm =
      match lookupJ r "tpcm" with
      | none => d.tpcm
      | some v =>
        match v with
        | .arr xs => Json.arr xs
        | _ => d.tpcm := by
  unfold applyTpcm
  (repeat' split) <;> simp_all

/-- Block applyLps does not touch field last_updated. -/
theorem applyLps_last_updated (r : List (String × Json)) (d : WattpilotData) :
    (applyLps r d).last_updated = d.last_updated := by
  unfold applyLps
  (repeat' split) <;> simp_all

/-- Block applyLps does not touch field charging_values. -/
theorem applyLps_charging_values (r : List (String × Json)) (d : WattpilotData) :
    (applyLps r d).charging_values = d.charging_values := by
  unfold applyLps
  (repeat' split) <;> simp_all

/-- Block applyLps does not touch field car_state. -/
theorem applyLps_car_state (r : List (String × Json)) (d : WattpilotData) :
    (applyLps r d).car_state = d.car_state := by
  unfold applyLps
  (repeat' split) <;> simp_all

/-- Block applyLps does not touch field model_status. -/
theorem applyLps_model_status (r : List (String × Json)) (d : WattpilotData) :
    (applyLps r d).model_status = d.model_status := by
  unfold applyLps
  (repeat' split) <;> simp_all

/-- Block applyLps does not touch field charged_since_connected. -/
theorem applyLps_charged_since_connected (r : List (String × Json)) (d : WattpilotData) :
    (applyLps r d).charged_since_connected = d.charged_since_connected := by
  unfold applyLps
  (repeat' split) <;> simp_all

/-- Block applyLps does not touch field tpcm. -/
theorem applyLps_tpcm (r : List (String × Json)) (d : WattpilotData) :
    (applyLps r d).tpcm = d.tpcm := by
  unfold applyLps
  (repeat' split) <;> simp_all

/-- Block applyLps does not touch field ets. -/
theorem applyLps_ets (r : List (String × Json)) (d : WattpilotData) :
    (applyLps r d).ets = d.ets := by
  unfold applyLps
  (repeat' split) <;> simp_all

/-- Characterization of block applyLps on its own field. -/
theorem applyLps_self (r : List (String × Json)) (d : WattpilotData) :
    (applyLps r d).lps =
      match lookupJ r "lps" with
      | none => d.lps
      | some v => (decodeI64Json v).getD d.lps := by
  unfold applyLps
  (repeat' split) <;> simp_all

/-- Block applyEts does not touch field last_updated. -/
theorem applyEts_last_updated (r : List (String × Json)) (d : WattpilotData) :
    (applyEts r d).last_updated = d.last_updated := by
  unfold applyEts
  (repeat' split) <;> simp_all

/-- Block applyEts does not touch field charging_values. -/
theorem applyEts_charging_values (r : List (String × Json)) (d : WattpilotData) :
    (applyEts r d).charging_values = d.charging_values := by
  unfold applyEts
  (repeat' split) <;> simp_all

/-- Block applyEts does not touch field car_state. -/
theorem applyEts_car_state (r : List (String × Json)) (d : WattpilotData) :
    (applyEts r d).car_state = d.car_state := by
  unfold applyEts
  (repeat' split) <;> simp_all

/-- Block applyEts does not touch field model_status. -/
theorem applyEts_model_status (r : List (String × Json)) (d : WattpilotData) :
    (applyEts r d).model_status = d.model_status := by
  unfold applyEts
  (repeat' split) <;> simp_all

/-- Block applyEts does not touch field charged_since_connected. -/
theorem applyEts_charged_since_connected (r : List (String × Json)) (d : WattpilotData) :
    (applyEts r d).charged_since_connected = d.charged_since_connected := by
  unfold applyEts
  (repeat' split) <;> simp_all

/-- Block applyEts does not touch field tpcm. -/
theorem applyEts_tpcm (r : List (String × Json)) (d : WattpilotData) :
    (applyEts r d).tpcm = d.tpcm := by
  unfold applyEts
  (repeat' split) <;> simp_all

/-- Block applyEts does not touch field lps. -/
theorem applyEts_lps (r : List (String × Json)) (d : WattpilotData) :
    (applyEts r d).lps = d.lps := by
  unfold applyEts
  (repeat' split) <;> simp_all

/-- Characterization of block applyEts on its own field. -/
theorem applyEts_self (r : List (String × Json)) (d : WattpilotData) :
    (applyEts r d).ets =
      match lookupJ r "ets" with
      | none => d.ets
      | some v => (decodeI64Json v).getD d.ets := by
  unfold applyEts
  (repeat' split) <;> simp_all

/-- The seven field blocks never change the timestamp. -/
theorem applyStatus_last_updated (r : List (String × Json)) (d : WattpilotData) :
    (applyStatus r d).last_updated = d.last_updated := by
  unfold applyStatus
  rw [applyEts_last_updated, applyLps_last_updated, applyTpcm_last_updated,
    applyWh_last_updated, applyModelStatus_last_updated, applyCar_last_updated,
    applyNrg_last_updated]

/-- Characterization of the seven field blocks on any projected field: a
present, decodable value overwrites the field; a present, malformed value
and an absent key both leave the field at its previous value. -/
theorem proj_applyStatus (r : List (String × Json)) (d : WattpilotData) (f : FieldId) :
    proj f (applyStatus r d) =
      match lookupJ r (keyOf f) with
      | none => proj f d
      | some v => (fieldDecode f v).getD (proj f d) := by
  cases f with
  | nrg =>
    simp only [applyStatus, proj, keyOf, fieldDecode, applyEts_charging_values,
      applyLps_charging_values, applyTpcm_charging_values, applyWh_charging_values,
      applyModelStatus_charging_values, applyCar_charging_values, applyNrg_self]
    cases h : lookupJ r "nrg" with
    | none => rfl
    | some v => cases hd : decodeChargingValues v <;> simp [hd]
  | car =>
    simp only [applyStatus, proj, keyOf, fieldDecode, applyEts_car_state,
      applyLps_car_state, applyTpcm_car_state, applyWh_car_state,
      applyModelStatus_car_state, applyCar_self, applyNrg_car_state]
    cases h : lookupJ r "car" with
    | none => rfl
    | some v => cases hd : decodeCarState v <;> simp [hd]
  | modelStatus =>
    simp only [applyStatus, proj, keyOf, fieldDecode, applyEts_model_status,
      applyLps_model_status, applyTpcm_model_status, applyWh_model_status,
      applyModelStatus_self, applyCar_model_status, applyNrg_model_status]
    cases h : lookupJ r "modelStatus" with
    | none => rfl
    | some v => cases hd : decodeModelStatus v <;> simp [hd]
  | wh =>
    simp only [applyStatus, proj, keyOf, fieldDecode, applyEts_charged_since_connected,
      applyLps_charged_since_connected, applyTpcm_charged_since_connected, applyWh_self,
      applyModelStatus_charged_since_connected, applyCar_charged_since_connected,
      applyNrg_charged_since_connected]
    cases h : lookupJ r "wh" with
    | none => rfl
    | some v => cases hd : decodeF32 v <;> simp [hd]
  | tpcm =>
    simp only [applyStatus, proj, keyOf, fieldDecode, applyEts_tpcm,
      applyLps_tpcm, applyTpcm_self, applyWh_tpcm,
      applyModelStatus_tpcm, applyCar_tpcm, applyNrg_tpcm]
    cases h : lookupJ r "tpcm" with
    | none => rfl
    | some v => cases v <;> simp
  | lps =>
    simp only [applyStatus, proj, keyOf, fieldDecode, applyEts_lps,
      applyLps_self, applyTpcm_lps, applyWh_lps,
      applyModelStatus_lps, applyCar_lps, applyNrg_lps]
    cases h : lookupJ r "lps" with
    | none => rfl
    | some v => cases hd : decodeI64Json v <;> simp [hd]
  | ets =>
    simp only [applyStatus, proj, keyOf, fieldDecode, applyEts_self,
      applyLps_ets, applyTpcm_ets, applyWh_ets,
      applyModelStatus_ets, applyCar_ets, applyNrg_ets]
    cases h : lookupJ r "ets" with
    | none => rfl
    | some v => cases hd : decodeI64Json v <;> simp [hd]

/-- Snapshots agreeing on the timestamp and on every projected field are
equal. -/
theorem wpDataExt (d1 d2 : WattpilotData)
    (hl : d1.last_updated = d2.last_updated)
    (hp : ∀ f, proj f d1 = proj f d2) : d1 = d2 := by
  cases d1
  cases d2
  have h1 := hp .nrg
  have h2 := hp .car
  have h3 := hp .modelStatus
  have h4 := hp .wh
  have h5 := hp .tpcm
  have h6 := hp .lps
  have h7 := hp .ets
  simp only [proj, FieldVal.nrg.injEq, FieldVal.car.injEq, FieldVal.modelStatus.injEq,
    FieldVal.wh.injEq, FieldVal.tpcm.injEq, FieldVal.lps.injEq, FieldVal.ets.injEq] at h1 h2 h3 h4 h5 h6 h7
  simp_all

/-- Applying the seven field blocks twice with the same filtered status is
the same as applying them once. -/
theorem applyStatus_idem (r : List (String × Json)) (d : WattpilotData) :
    applyStatus r (applyStatus r d) = applyStatus r d := by
  apply wpDataExt
  · rw [applyStatus_last_updated]
  · intro f
    rw [proj_applyStatus, proj_applyStatus]
    cases h : lookupJ r (keyOf f) with
    | none => rfl
    | some v => cases hd : fieldDecode f v <;> simp [hd]

/-- Overwriting the timestamp with its current value is the identity. -/
theorem setLu_eq (x : WattpilotData) (now : ℚ) (h : x.last_updated = now) :
    { x with last_updated := now } = x := by
  cases x
  simp_all

/-- Projected fields ignore a timestamp overwrite. -/
theorem proj_setLu (f : FieldId) (d : WattpilotData) (now : ℚ) :
    proj f { d with last_updated := now } = proj f d := by
  cases f <;> rfl

/-- Unfolding equation of `read_message` on a parsed message. -/
theorem read_message_some (d : WattpilotData) (now : ℚ) (v : Json) :
    read_message d now (some v) =
      match jsonGet v "status" with
      | none => d
      | some status =>
        match status.asObj with
        | none => d
        | some o =>
          let reduced := o.filter fun p => allowKeys.contains p.1
          if reduced.isEmpty then d
          else applyStatus reduced { d with last_updated := now } := rfl

/-- Unparsable inbound text leaves the snapshot unchanged. -/
theorem read_message_noParse (d : WattpilotData) (now : ℚ) :
    read_message d now none = d := rfl

/-- A message without a "status" entry leaves the snapshot unchanged. -/
theorem read_message_noStatus (d : WattpilotData) (now : ℚ) (v : Json)
    (hs : jsonGet v "status" = none) : read_message d now (some v) = d := by
  simp only [read_message_some, hs]

/-- A message whose "status" entry is not an object leaves the snapshot
unchanged. -/
theorem read_message_statusNotObj (d : WattpilotData) (now : ℚ) (v status : Json)
    (hs : jsonGet v "status" = some status) (ho : status.asObj = none) :
    read_message d now (some v) = d := by
  simp only [read_message_some, hs, ho]

/-- A message whose status object holds no allow-listed key leaves the
snapshot unchanged. -/
theorem read_message_emptyFilter (d : WattpilotData) (now : ℚ) (v status : Json)
    (o : List (String × Json))
    (hs : jsonGet v "status" = some status) (ho : status.asObj = some o)
    (he : (o.filter fun p => allowKeys.contains p.1).isEmpty = true) :
    read_message d now (some v) = d := by
  simp only [read_message_some, hs, ho]
  simp only [he, if_true]

/-- A message whose status object holds at least one allow-listed key sets
the timestamp and runs the seven field blocks on the filtered entries. -/
theorem read_message_applied (d : WattpilotData) (now : ℚ) (v status : Json)
    (o : List (String × Json))
    (hs : jsonGet v "status" = some status) (ho : status.asObj = some o)
    (he : (o.filter fun p => allowKeys.contains p.1).isEmpty = false) :
    read_message d now (some v) =
      applyStatus (o.filter fun p => allowKeys.contains p.1)
        { d with last_updated := now } := by
  simp only [read_message_some, hs, ho, he, Bool.false_eq_true, if_false]

/-- Processing any inbound message twice at the same observed time yields
the same snapshot as processing it once. -/
theorem read_message_idem (d : WattpilotData) (now : ℚ) (msg : Option Json) :
    read_message (read_message d now msg) now msg = read_message d now msg := by
  cases msg with
  | none => rfl
  | some v =>
    cases hs : jsonGet v "status" with
    | none => rw [read_message_noStatus _ _ _ hs, read_message_noStatus _ _ _ hs]
    | some status =>
      cases ho : status.asObj with
      | none =>
        rw [read_message_statusNotObj _ _ _ _ hs ho, read_message_statusNotObj _ _ _ _ hs ho]
      | some o =>
        cases he : (o.filter fun p => allowKeys.contains p.1).isEmpty with
        | true =>
          rw [read_message_emptyFilter _ _ _ _ _ hs ho he,
            read_message_emptyFilter _ _ _ _ _ hs ho he]
        | false =>
          rw [read_message_applied _ _ _ _ _ hs ho he,
            read_message_applied _ _ _ _ _ hs ho he]
          rw [setLu_eq _ _ (by rw [applyStatus_last_updated])]
          exact applyStatus_idem _ _

/-- Every field key is allow-listed. -/
theorem allowKeys_keyOf (f : FieldId) : allowKeys.contains (keyOf f) = true := by
  cases f <;> rfl

/-- Every field key is a member of the allow-list. -/
theorem allowKeys_keyOf_mem (f : FieldId) : keyOf f ∈ allowKeys := by
  cases f <;> simp [allowKeys, keyOf]

/-- Distinct fields own distinct keys. -/
theorem keyOf_inj {f g : FieldId} (h : keyOf f = keyOf g) : f = g := by
  cases f <;> cases g <;> simp_all [keyOf]

/-- Timestamp of the snapshot after an applied message is the observed time. -/
theorem read_message_applied_lu (d : WattpilotData) (now : ℚ) (v status : Json)
    (o : List (String × Json))
    (hs : jsonGet v "status" = some status) (ho : status.asObj = some o)
    (he : (o.filter fun p => allowKeys.contains p.1).isEmpty = false) :
    (read_message d now (some v)).last_updated = now := by
  rw [read_message_applied d now v status o hs ho he, applyStatus_last_updated]

/-- Field-level description of the snapshot after an applied message. -/
theorem proj_read_message_applied (d : WattpilotData) (now : ℚ) (v status : Json)
    (o : List (String × Json)) (f : FieldId)
    (hs : jsonGet v "status" = some status) (ho : status.asObj = some o)
    (he : (o.filter fun p => allowKeys.contains p.1).isEmpty = false) :
    proj f (read_message d now (some v)) =
      match lookupJ (o.filter fun p => allowKeys.contains p.1) (keyOf f) with
      | none => proj f d
      | some w => (fieldDecode f w).getD (proj f d) := by
  rw [read_message_applied d now v status o hs ho he, proj_applyStatus]
  simp only [proj_setLu]

/-! ### Saturation lemmas for the float casts -/

/-- A battery percentage above 255 saturates to 255. -/
theorem f64AsU8_of_gt255 (x : ℚ) (h : 255 < x) : f64AsU8 x = 255 := by
  unfold f64AsU8 ratTrunc
  rw [if_pos (by linarith : (0:ℚ) ≤ x)]
  have h2 : (255 : ℤ) ≤ ⌊x⌋ := Int.le_floor.mpr (by push_cast; linarith)
  omega

/-- A negative value saturates to 0 under the u8 cast. -/
theorem f64AsU8_of_neg (x : ℚ) (h : x < 0) : f64AsU8 x = 0 := by
  unfold f64AsU8 ratTrunc
  rw [if_neg (not_le.mpr h)]
  have h2 : ⌈x⌉ ≤ 0 := Int.ceil_le.mpr (by push_cast; linarith)
  omega

/-- A value above the u32 range saturates to the u32 maximum. -/
theorem f64AsU32_of_gtMax (x : ℚ) (h : (4294967295 : ℚ) < x) : f64AsU32 x = 4294967295 := by
  unfold f64AsU32 ratTrunc u32Max
  rw [if_pos (by linarith : (0:ℚ) ≤ x)]
  have h2 : (4294967295 : ℤ) ≤ ⌊x⌋ := Int.le_floor.mpr (by push_cast; linarith)
  omega

/-- A negative value saturates to 0 under the u32 cast. -/
theorem f64AsU32_of_neg (x : ℚ) (h : x < 0) : f64AsU32 x = 0 := by
  unfold f64AsU32 ratTrunc
  rw [if_neg (not_le.mpr h)]
  have h2 : ⌈x⌉ ≤ 0 := Int.ceil_le.mpr (by push_cast; linarith)
  omega

/-- A negative value saturates to 0 under the u64 cast. -/
theorem f64AsU64_of_neg (x : ℚ) (h : x < 0) : f64AsU64 x = 0 := by
  unfold f64AsU64 ratTrunc
  rw [if_neg (not_le.mpr h)]
  have h2 : ⌈x⌉ ≤ 0 := Int.ceil_le.mpr (by push_cast; linarith)
  omega

/-- On in-range nonnegative integral values the u32 cast is exact. -/
theorem f64AsU32_intCast (m : ℤ) (h0 : 0 ≤ m) (h1 : m ≤ u32Max) :
    f64AsU32 (m : ℚ) = m.toNat := by
  unfold f64AsU32 ratTrunc
  rw [if_pos (by exact_mod_cast h0), Int.floor_intCast]
  unfold u32Max at h1 ⊢
  omega

/-! ### Transport-error classification for the fetch loop -/

/-- The error string of a transport failure (HTTP send or body read), if
the step is one. -/
def transportErr : FetchStep → Option String
  | .sendErr e => some e
  | .statusFailTextErr e => some e
  | .okTextErr e => some e
  | _ => none

/-- A transport failure makes the loop iteration propagate its error. -/
theorem classify_of_transport (s : FetchStep) (e : String)
    (h : transportErr s = some e) : classifyStep s = .error e := by
  cases s <;> simp_all [transportErr, classifyStep]

/-! ### Claim theorems -/

/-- C1: the specification's end-to-end scenario claims `get_data` succeeds
on the given inverter response and returns the expected snapshot.  The
code cannot parse this response at all: the serde alias of the `site`
field is "inverters" (shadowed by the `inverters` field) instead of
"Site", so the "Site" key is ignored and deserialization fails with a
missing `site` field; `get_data` therefore exhausts its 3 attempts and
returns the internal-server-error failure instead of the snapshot. -/
theorem c1_scenario_fails_on_alias_bug :
    deserializeSolarJson c1Json = none ∧
    get_data (fun _ => FetchStep.okBody (some c1Json)) 0 =
      .error .internalServerError ∧
    countAttempts (runFetch (fun _ => FetchStep.okBody (some c1Json))).1 = 3 :=
  ⟨rfl, rfl, rfl⟩

/-- C2, counterexample: on a well-formed "authError" response,
`authenticate` marks the client unauthenticated but returns `Ok`, so the
reconnect loop proceeds to streaming — contradicting the claim that an
authError response fails the handshake. -/
theorem c2_cex_authError_returns_ok :
    authProcessResponse (some (Json.obj [("type", Json.str "authError")])) true =
      .ok false ∧
    entersStreaming (some (Json.obj [("type", Json.str "authError")])) true = true :=
  ⟨rfl, rfl⟩

/-- C2, amended: the auth-response step only updates the authenticated
flag — false on "authError", true on "authSuccess", unchanged otherwise —
and returns `Ok` for every well-formed response, so streaming is entered
regardless of the response type; only a missing or unparsable response
fails the handshake. -/
theorem c2_amended_auth_flag_only (v : Json) (b : Bool) :
    authProcessResponse (some v) b = .ok (authFlagOnResponse v b) ∧
    entersStreaming (some v) b = true ∧
    authProcessResponse none b = .error "No data for auth response" ∧
    entersStreaming none b = false ∧
    (jsonIndex v "type" = Json.str "authSuccess" → authFlagOnResponse v b = true) ∧
    (jsonIndex v "type" = Json.str "authError" → authFlagOnResponse v b = false) := by
  refine ⟨rfl, rfl, rfl, rfl, ?_, ?_⟩
  · intro h
    simp [authFlagOnResponse, h, jsonIsStr]
  · intro h
    simp [authFlagOnResponse, h, jsonIsStr]

/-- C2, witness: evaluating the amended theorem on concrete authError and
authSuccess responses. -/
theorem c2_amended_witness :
    authFlagOnResponse (Json.obj [("type", Json.str "authError")]) true = false ∧
    authFlagOnResponse (Json.obj [("type", Json.str "authSuccess")]) false = true :=
  ⟨(c2_amended_auth_flag_only (Json.obj [("type", Json.str "authError")]) true).2.2.2.2.2 rfl,
   (c2_amended_auth_flag_only (Json.obj [("type", Json.str "authSuccess")]) false).2.2.2.2.1 rfl⟩

/-- C3, counterexample: a transport error while sending the very first
request is propagated immediately by the `?` operator after a single
attempt — it is not retried, contradicting the claim that transport
errors are never propagated before the 3-attempt budget is exhausted. -/
theorem c3_cex_transport_error_propagates :
    get_data (fun _ => FetchStep.sendErr "connection refused") 0 =
      .error (.propagated "connection refused") ∧
    countAttempts (runFetch (fun _ => FetchStep.sendErr "connection refused")).1 = 1 :=
  ⟨rfl, rfl⟩

/-- C3, amended: transport errors (send or body-read failures) are not
retried at all: the first one aborts `get_data` immediately with that
error, after exactly the attempts made so far; only non-success statuses
and parse failures consume the 3-attempt retry budget. -/
theorem c3_amended_transport_not_retried (env : ℕ → FetchStep) (k : ℕ) (e : String)
    (hk : k < 3) (hpre : ∀ i, i < k → classifyStep (env i) = .ok none)
    (hte : transportErr (env k) = some e) :
    (runFetch env).2 = .error (.propagated e) ∧
    countAttempts (runFetch env).1 = k + 1 := by
  have hc := classify_of_transport _ _ hte
  interval_cases k
  · constructor <;> simp [runFetch, fetchLoop, hc, countAttempts]
  · have h0 := hpre 0 (by norm_num)
    constructor <;> simp [runFetch, fetchLoop, h0, hc, countAttempts]
  · have h0 := hpre 0 (by norm_num)
    have h1 := hpre 1 (by norm_num)
    constructor <;> simp [runFetch, fetchLoop, h0, h1, hc, countAttempts]

/-- C3, witness: the amended theorem evaluated with a transport error on
the first attempt. -/
theorem c3_amended_witness :
    (runFetch (fun _ => FetchStep.sendErr "refused")).2 = .error (.propagated "refused") ∧
    countAttempts (runFetch (fun _ => FetchStep.sendErr "refused")).1 = 0 + 1 :=
  c3_amended_transport_not_retried (fun _ => FetchStep.sendErr "refused") 0 "refused"
    (by norm_num) (fun i h => absurd h (by omega)) rfl

/-- C4: when every attempt yields a non-success HTTP status with a
readable body, `get_data` performs exactly 3 attempts, each followed by a
100 ms sleep (so consecutive attempts are separated by 100 ms), and then
returns the fetch failure. -/
theorem c4_three_attempts_then_failure (env : ℕ → FetchStep)
    (h : ∀ i, i < 3 → ∃ b, env i = FetchStep.statusFail b) :
    runFetch env =
      ([.attempt, .sleepMs 100, .attempt, .sleepMs 100, .attempt, .sleepMs 100],
        .error .internalServerError) := by
  obtain ⟨b0, h0⟩ := h 0 (by norm_num)
  obtain ⟨b1, h1⟩ := h 1 (by norm_num)
  obtain ⟨b2, h2⟩ := h 2 (by norm_num)
  simp [runFetch, fetchLoop, classifyStep, h0, h1, h2]

/-- C4, witness: the theorem evaluated against a server that always
returns HTTP 500. -/
theorem c4_witness :
    runFetch (fun _ => FetchStep.statusFail "Internal Server Error") =
      ([.attempt, .sleepMs 100, .attempt, .sleepMs 100, .attempt, .sleepMs 100],
        .error .internalServerError) :=
  c4_three_attempts_then_failure (fun _ => FetchStep.statusFail "Internal Server Error")
    (fun _ _ => ⟨"Internal Server Error", rfl⟩)

/-- C5: an inbound charger message that fails to parse, or has no nested
"status" object, or whose status object contains none of the allow-listed
keys, leaves the snapshot — including its timestamp — completely
unchanged. -/
theorem c5_irrelevant_message_no_change (d : WattpilotData) (now : ℚ) (msg : Option Json)
    (h : msg = none ∨ ∃ v, msg = some v ∧
      (jsonGet v "status" = none ∨
       (∃ status, jsonGet v "status" = some status ∧ status.asObj = none) ∨
       (∃ status o, jsonGet v "status" = some status ∧ status.asObj = some o ∧
         (o.filter fun p => allowKeys.contains p.1) = []))) :
    read_message d now msg = d := by
  rcases h with h | ⟨v, rfl, h⟩
  · subst h; rfl
  · rcases h with hs | ⟨status, hs, ho⟩ | ⟨status, o, hs, ho, he⟩
    · exact read_message_noStatus _ _ _ hs
    · exact read_message_statusNotObj _ _ _ _ hs ho
    · exact read_message_emptyFilter _ _ _ _ _ hs ho (by rw [he]; rfl)

/-- C5, witness: a message whose status object carries only an
unrecognized key leaves the default snapshot unchanged. -/
theorem c5_witness :
    read_message defaultWattpilotData 7
      (some (Json.obj [("status", Json.obj [("foo", Json.num 1)])])) =
      defaultWattpilotData :=
  c5_irrelevant_message_no_change defaultWattpilotData 7
    (some (Json.obj [("status", Json.obj [("foo", Json.num 1)])]))
    (Or.inr ⟨Json.obj [("status", Json.obj [("foo", Json.num 1)])], rfl,
      Or.inr (Or.inr ⟨Json.obj [("foo", Json.num 1)], [("foo", Json.num 1)], rfl, rfl, rfl⟩)⟩)

/-- Message whose status object carries exactly the keys of two fields. -/
def twoKeyMsg (f g : FieldId) (vf vg : Json) : Json :=
  Json.obj [("status", Json.obj [(keyOf f, vf), (keyOf g, vg)])]

/-- C6: for a message whose status object carries exactly one allow-listed
field with a decodable value and one allow-listed field with a malformed
value, `read_message` overwrites the valid field with the decoded value,
leaves the malformed field at its previous value, and advances the
snapshot timestamp to the observed current time. -/
theorem c6_one_valid_one_malformed (d : WattpilotData) (now : ℚ) (f g : FieldId)
    (vf vg : Json) (val : FieldVal)
    (hfg : f ≠ g) (hlt : d.last_updated < now)
    (hf : fieldDecode f vf = some val) (hg : fieldDecode g vg = none) :
    proj f (read_message d now (some (twoKeyMsg f g vf vg))) = val ∧
    proj g (read_message d now (some (twoKeyMsg f g vf vg))) = proj g d ∧
    (read_message d now (some (twoKeyMsg f g vf vg))).last_updated = now ∧
    d.last_updated < (read_message d now (some (twoKeyMsg f g vf vg))).last_updated := by
  have hs : jsonGet (twoKeyMsg f g vf vg) "status" =
      some (Json.obj [(keyOf f, vf), (keyOf g, vg)]) := rfl
  have ho : (Json.obj [(keyOf f, vf), (keyOf g, vg)]).asObj =
      some [(keyOf f, vf), (keyOf g, vg)] := rfl
  have hfilter : ([(keyOf f, vf), (keyOf g, vg)].filter fun p => allowKeys.contains p.1) =
      [(keyOf f, vf), (keyOf g, vg)] := by
    simp [allowKeys_keyOf_mem]
  have he : (([(keyOf f, vf), (keyOf g, vg)]).filter fun p => allowKeys.contains p.1).isEmpty
      = false := by
    rw [hfilter]
    rfl
  have hkgf : (keyOf g == keyOf f) = false :=
    beq_eq_false_iff_ne.mpr fun hcontra => hfg (keyOf_inj hcontra).symm
  have hkfg : (keyOf f == keyOf g) = false :=
    beq_eq_false_iff_ne.mpr fun hcontra => hfg (keyOf_inj hcontra)
  have hlookf : lookupJ [(keyOf f, vf), (keyOf g, vg)] (keyOf f) = some vf := by
    simp [lookupJ, List.filter, hkgf]
  have hlookg : lookupJ [(keyOf f, vf), (keyOf g, vg)] (keyOf g) = some vg := by
    simp [lookupJ, List.filter, hkfg]
  refine ⟨?_, ?_, ?_, ?_⟩
  · rw [proj_read_message_applied d now _ _ _ f hs ho he, hfilter, hlookf]
    simp [hf]
  · rw [proj_read_message_applied d now _ _ _ g hs ho he, hfilter, hlookg]
    simp [hg]
  · exact read_message_applied_lu d now _ _ _ hs ho he
  · rw [read_message_applied_lu d now _ _ _ hs ho he]
    exact hlt

/-- C6, witness: a status object with a valid "car" value and a malformed
"wh" value, applied to the default snapshot. -/
theorem c6_witness :
    proj .car (read_message defaultWattpilotData 5
      (some (twoKeyMsg .car .wh (Json.num 2) (Json.str "x")))) =
      FieldVal.car .Charging ∧
    proj .wh (read_message defaultWattpilotData 5
      (some (twoKeyMsg .car .wh (Json.num 2) (Json.str "x")))) =
      proj .wh defaultWattpilotData ∧
    (read_message defaultWattpilotData 5
      (some (twoKeyMsg .car .wh (Json.num 2) (Json.str "x")))).last_updated = 5 ∧
    defaultWattpilotData.last_updated <
      (read_message defaultWattpilotData 5
        (some (twoKeyMsg .car .wh (Json.num 2) (Json.str "x")))).last_updated :=
  c6_one_valid_one_malformed defaultWattpilotData 5 .car .wh (Json.num 2) (Json.str "x")
    (FieldVal.car .Charging) (by decide) (by norm_num [defaultWattpilotData]) rfl rfl

/-- Valid update message: it parses, carries a status object, and every
allow-listed field present in it decodes successfully. -/
def isValidUpdate (msg : Option Json) : Prop :=
  ∃ v status o, msg = some v ∧ jsonGet v "status" = some status ∧ status.asObj = some o ∧
    ∀ p ∈ (o.filter fun pa => allowKeys.contains pa.1),
      ∀ f : FieldId, keyOf f = p.1 → (fieldDecode f p.2).isSome

/-- C7: applying `read_message` twice with the same valid update message
at the same observed time yields the same snapshot as applying it once. -/
theorem c7_valid_update_idempotent (d : WattpilotData) (now : ℚ) (msg : Option Json)
    (hvalid : isValidUpdate msg) :
    read_message (read_message d now msg) now msg = read_message d now msg :=
  read_message_idem d now msg

/-- C7, witness: the idempotence theorem evaluated on a concrete valid
"wh" update. -/
theorem c7_witness :
    read_message (read_message defaultWattpilotData 9
        (some (Json.obj [("status", Json.obj [("wh", Json.num 5)])]))) 9
      (some (Json.obj [("status", Json.obj [("wh", Json.num 5)])])) =
    read_message defaultWattpilotData 9
      (some (Json.obj [("status", Json.obj [("wh", Json.num 5)])])) :=
  c7_valid_update_idempotent defaultWattpilotData 9
    (some (Json.obj [("status", Json.obj [("wh", Json.num 5)])]))
    ⟨Json.obj [("status", Json.obj [("wh", Json.num 5)])],
     Json.obj [("wh", Json.num 5)], [("wh", Json.num 5)], rfl, rfl, rfl, by
      intro p hp f hkey
      rw [show (List.filter (fun pa => allowKeys.contains pa.1) [("wh", Json.num 5)]) =
        [("wh", Json.num 5)] from rfl] at hp
      simp only [List.mem_singleton] at hp
      subst hp
      cases f <;> simp_all [keyOf, fieldDecode, decodeF32]⟩

/-- C8, counterexample: when the charger client is absent, the cycle does
substitute the all-default record but sends no notification at all — the
claim requires a degraded (code 2) notification also in the absent case. -/
theorem c8_cex_absent_client_no_notification :
    chargerStep none 0 = (defaultWattpilotData, none) ∧
    (chargerStep none 0).2 ≠ some 2 :=
  ⟨rfl, by simp [chargerStep]⟩

/-- C8, amended: an absent charger client yields the default record with
no notification; a present client that is unauthenticated or whose
snapshot is older than 30 seconds yields the default record and the
degraded code-2 notification; otherwise the live snapshot is used and no
charger notification is sent. -/
theorem c8_amended_charger_read (w : Wattpilot) (now : ℚ) :
    chargerStep none now = (defaultWattpilotData, none) ∧
    (w.authenticated = false ∨ now - w.data.last_updated > 30 →
      chargerStep (some w) now = (defaultWattpilotData, some 2)) ∧
    (w.authenticated = true → now - w.data.last_updated ≤ 30 →
      chargerStep (some w) now = (w.data, none)) := by
  refine ⟨rfl, ?_, ?_⟩
  · intro h
    simp only [chargerStep]
    rw [if_pos h]
  · intro ha hage
    simp only [chargerStep]
    rw [if_neg (by push_neg; exact ⟨by simp [ha], hage⟩)]

/-- C8, witness: the amended theorem evaluated on an unauthenticated
client and on a fresh authenticated client. -/
theorem c8_amended_witness :
    chargerStep (some ⟨false, defaultWattpilotData⟩) 0 = (defaultWattpilotData, some 2) ∧
    chargerStep (some ⟨true, defaultWattpilotData⟩) 0 = (defaultWattpilotData, none) :=
  ⟨(c8_amended_charger_read ⟨false, defaultWattpilotData⟩ 0).2.1 (Or.inl rfl),
   (c8_amended_charger_read ⟨true, defaultWattpilotData⟩ 0).2.2 rfl
     (by norm_num [defaultWattpilotData])⟩

/-- Parsed response whose secondary-meter power and site PV power are both
one half, exercising fractional truncation. -/
def c9Json : SolarJson :=
  { secondary_meters := [("m", ⟨1/2⟩)]
    inverters := []
    site := ⟨0, 0, 0, 1/2, 0, 0⟩ }

/-- Inverter document deserializing to `c9Json` (it uses the lowercase
"site" key that the buggy alias actually accepts). -/
def c9Doc : Json :=
  Json.obj
    [("SecondaryMeters", Json.obj [("m", Json.obj [("P", Json.num (1/2))])]),
     ("inverters", Json.arr []),
     ("site", Json.obj
        [("P_Akku", Json.num 0), ("P_Grid", Json.num 0), ("P_Load", Json.num 0),
         ("P_PV", Json.num (1/2)), ("rel_Autonomy", Json.num 0),
         ("rel_SelfConsumption", Json.num 0)])]

/-- C9, counterexample: on a successfully parsed response with fractional
powers 0.5 and 0.5, the snapshot has combined power 1 but old and new
powers 0, so combined ≠ old + new — the additivity claim fails for
fractional power values. -/
theorem c9_cex_fractional_powers_break_additivity :
    deserializeSolarJson c9Doc = some c9Json ∧
    (solarDataOf c9Json 0).both_inverter_power ≠
      (solarDataOf c9Json 0).old_inverter_power + (solarDataOf c9Json 0).new_inverter_power := by
  refine ⟨rfl, ?_⟩
  have e1 : secPowerOf c9Json = 1/2 := rfl
  have e2 : c9Json.site.power_pv = 1/2 := rfl
  have h1 : f64AsU32 ((1:ℚ)/2 + 1/2) = 1 := by
    unfold f64AsU32 ratTrunc u32Max
    rw [if_pos (by norm_num)]
    rw [show ⌊(1:ℚ)/2 + 1/2⌋ = 1 by norm_num]
    rfl
  have h2 : f64AsU32 ((1:ℚ)/2) = 0 := by
    unfold f64AsU32 ratTrunc u32Max
    rw [if_pos (by norm_num)]
    rw [show ⌊(1:ℚ)/2⌋ = 0 by rw [Int.floor_eq_iff] <;> norm_num]
    rfl
  simp only [solarDataOf, e1, e2, h1, h2]
  decide

/-- C9, amended: combined power equals old power plus new power whenever
the raw secondary-meter power and site PV power are nonnegative whole
numbers whose sum is within the u32 range; fractional or out-of-range
values can break additivity through truncation and saturation. -/
theorem c9_amended_additive_on_integral (j : SolarJson) (now : ℚ) (m n : ℤ)
    (hm : secPowerOf j = (m : ℚ)) (hn : j.site.power_pv = (n : ℚ))
    (h0 : 0 ≤ m) (h1 : 0 ≤ n) (hsum : m + n ≤ u32Max) :
    (solarDataOf j now).both_inverter_power =
      (solarDataOf j now).old_inverter_power + (solarDataOf j now).new_inverter_power := by
  simp only [solarDataOf, hm, hn]
  rw [show ((m:ℚ) + (n:ℚ)) = ((m + n : ℤ) : ℚ) by push_cast; ring]
  rw [f64AsU32_intCast m h0 (by unfold u32Max at hsum ⊢; omega),
    f64AsU32_intCast n h1 (by unfold u32Max at hsum ⊢; omega),
    f64AsU32_intCast (m + n) (by omega) hsum]
  omega

/-- C9, witness: additivity holds at the integral powers 100 and 2500. -/
theorem c9_amended_witness :
    (solarDataOf ⟨[("m1", ⟨100⟩)], [⟨55⟩], ⟨-200, 50, -3000, 2500, 80, 90⟩⟩ 0).both_inverter_power =
      (solarDataOf ⟨[("m1", ⟨100⟩)], [⟨55⟩], ⟨-200, 50, -3000, 2500, 80, 90⟩⟩ 0).old_inverter_power +
      (solarDataOf ⟨[("m1", ⟨100⟩)], [⟨55⟩], ⟨-200, 50, -3000, 2500, 80, 90⟩⟩ 0).new_inverter_power :=
  c9_amended_additive_on_integral ⟨[("m1", ⟨100⟩)], [⟨55⟩], ⟨-200, 50, -3000, 2500, 80, 90⟩⟩ 0
    100 2500 (by norm_num [secPowerOf]) (by norm_num) (by norm_num) (by norm_num)
    (by norm_num [u32Max])

/-- C10: the float-to-integer conversions of `get_data` saturate instead
of wrapping (and, being total saturating casts, never panic): a battery
percentage above 255 is stored as 255 and a negative one as 0; a positive
raw site load yields house consumption 0; secondary-meter or PV power
above the u32 range is clamped to the u32 maximum and negative power to 0. -/
theorem c10_casts_saturate (j : SolarJson) (now : ℚ) :
    (255 < batteryOf j → (solarDataOf j now).battery_load_percentage = 255) ∧
    (batteryOf j < 0 → (solarDataOf j now).battery_load_percentage = 0) ∧
    (0 < j.site.house_consumption → (solarDataOf j now).house_consumption = 0) ∧
    ((4294967295 : ℚ) < secPowerOf j → (solarDataOf j now).old_inverter_power = 4294967295) ∧
    (secPowerOf j < 0 → (solarDataOf j now).old_inverter_power = 0) ∧
    ((4294967295 : ℚ) < j.site.power_pv → (solarDataOf j now).new_inverter_power = 4294967295) ∧
    (j.site.power_pv < 0 → (solarDataOf j now).new_inverter_power = 0) := by
  refine ⟨?_, ?_, ?_, ?_, ?_, ?_, ?_⟩ <;> intro h <;> simp only [solarDataOf]
  exacts [f64AsU8_of_gt255 _ h, f64AsU8_of_neg _ h,
    f64AsU64_of_neg _ (by linarith), f64AsU32_of_gtMax _ h, f64AsU32_of_neg _ h,
    f64AsU32_of_gtMax _ h, f64AsU32_of_neg _ h]

/-- C10, witness: the saturation theorem evaluated on a response with
battery 300, positive raw load 500, negative secondary power and a PV
power above the u32 range. -/
theorem c10_witness :
    (solarDataOf ⟨[("m", ⟨-5⟩)], [⟨300⟩], ⟨0, 0, 500, 5000000000, 0, 0⟩⟩ 0).battery_load_percentage = 255 ∧
    (solarDataOf ⟨[("m", ⟨-5⟩)], [⟨300⟩], ⟨0, 0, 500, 5000000000, 0, 0⟩⟩ 0).house_consumption = 0 ∧
    (solarDataOf ⟨[("m", ⟨-5⟩)], [⟨300⟩], ⟨0, 0, 500, 5000000000, 0, 0⟩⟩ 0).old_inverter_power = 0 ∧
    (solarDataOf ⟨[("m", ⟨-5⟩)], [⟨300⟩], ⟨0, 0, 500, 5000000000, 0, 0⟩⟩ 0).new_inverter_power = 4294967295 :=
  ⟨(c10_casts_saturate ⟨[("m", ⟨-5⟩)], [⟨300⟩], ⟨0, 0, 500, 5000000000, 0, 0⟩⟩ 0).1
      (by norm_num [batteryOf]),
   (c10_casts_saturate ⟨[("m", ⟨-5⟩)], [⟨300⟩], ⟨0, 0, 500, 5000000000, 0, 0⟩⟩ 0).2.2.1
      (by norm_num),
   (c10_casts_saturate ⟨[("m", ⟨-5⟩)], [⟨300⟩], ⟨0, 0, 500, 5000000000, 0, 0⟩⟩ 0).2.2.2.2.1
      (by norm_num [secPowerOf]),
   (c10_casts_saturate ⟨[("m", ⟨-5⟩)], [⟨300⟩], ⟨0, 0, 500, 5000000000, 0, 0⟩⟩ 0).2.2.2.2.2.1
      (by norm_num)⟩
